import Mathlib

/-!
Shallow embedding of the Autoproof Neuroglancer State Generator
(`src/ng_utils.py`, `src/generate_ng_state.py`).

Coordinates are 32-bit floats compared bit-exactly by the code
(`np.unique` on float32 rows); we model a coordinate as an `Int`
standing for a float value, with exact equality and the numeric
(lexicographic, row-major) order that `np.unique(axis=0)` sorts by.
-/

/-- A 3D skeleton point, one row of the `(N, 3)` array
`all_pts = raw.reshape(-1, 3)` in `fetch_proofread_skeletons`. -/
structure Pt where
  x : Int
  y : Int
  z : Int
deriving DecidableEq, Repr

instance : Inhabited Pt := ⟨⟨0, 0, 0⟩⟩

/-- Lexicographic key of a point, giving the row-major order in which
`np.unique(axis=0)` sorts rows. -/
def Pt.key (p : Pt) : Int ×ₗ (Int ×ₗ Int) := toLex (p.x, toLex (p.y, p.z))

theorem Pt.key_injective : Function.Injective Pt.key := by
  intro a b h
  cases a
  cases b
  simp only [Pt.key, toLex_inj, Prod.mk.injEq] at h
  simp [h.1, h.2.1, h.2.2]

instance : LinearOrder Pt := LinearOrder.lift' Pt.key Pt.key_injective

/-- Model of `np.unique(all_pts, axis=0)` (the values part): the distinct
rows of the input, in sorted (lexicographic) order. -/
def unique_rows (pts : List Pt) : List Pt :=
  (List.insertionSort (· ≤ ·) pts).dedup

/-- Model of `raw.reshape(-1, 3)`: group a flat coordinate stream into
3D points, three consecutive coordinates per point.  The short cases are
unreachable when the length-divisibility guard of the caller holds. -/
def chunk3 : List Int → List Pt
  | [] => []
  | [_] => []
  | [_, _] => []
  | x :: y :: z :: rest => ⟨x, y, z⟩ :: chunk3 rest

/-- Model of `inv.reshape(-1, 2)`: group the inverse-index stream into
edge pairs, two consecutive indices per edge. -/
def pairUp : List Nat → List (Nat × Nat)
  | [] => []
  | [_] => []
  | a :: b :: rest => (a, b) :: pairUp rest

/-- The per-segment skeleton deduplication body of
`fetch_proofread_skeletons` (`src/ng_utils.py` lines 49-52):
`all_pts = raw.reshape(-1, 3)`;
`verts, inv = np.unique(all_pts, axis=0, return_inverse=True)`;
`edges = inv.reshape(-1, 2)`.  `np.unique` with `return_inverse=True`
returns the sorted distinct rows together with, for each input row, its
index in that sorted array; both `reshape` calls fail (here: `none`)
unless the stream length is divisible as required. -/
def skeleton_dedup (raw : List Int) : Option (List Pt × List (Nat × Nat)) :=
  if raw.length % 3 = 0 then
    let pts := chunk3 raw
    if pts.length % 2 = 0 then
      let verts := unique_rows pts
      some (verts, pairUp (pts.map (fun p => verts.indexOf p)))
    else none
  else none

theorem mem_unique_rows {p : Pt} {pts : List Pt} :
    p ∈ unique_rows pts ↔ p ∈ pts :=
  List.mem_dedup.trans (List.perm_insertionSort _ _).mem_iff

theorem nodup_unique_rows (pts : List Pt) : (unique_rows pts).Nodup :=
  List.nodup_dedup _

theorem sorted_unique_rows (pts : List Pt) :
    List.Sorted (· ≤ ·) (unique_rows pts) :=
  List.Pairwise.sublist (List.dedup_sublist _) (List.sorted_insertionSort _ _)

theorem length_unique_rows_le (pts : List Pt) :
    (unique_rows pts).length ≤ pts.length :=
  le_of_le_of_eq (List.Sublist.length_le (List.dedup_sublist _))
    (List.Perm.length_eq (List.perm_insertionSort _ _))

theorem unique_rows_canonical {pts₁ pts₂ : List Pt}
    (h : pts₁.toFinset = pts₂.toFinset) :
    unique_rows pts₁ = unique_rows pts₂ := by
  apply List.eq_of_perm_of_sorted _ (sorted_unique_rows pts₁) (sorted_unique_rows pts₂)
  apply List.perm_of_nodup_nodup_toFinset_eq (nodup_unique_rows pts₁)
    (nodup_unique_rows pts₂)
  ext a
  have ha := Finset.ext_iff.mp h a
  simp only [List.mem_toFinset] at ha ⊢
  rw [mem_unique_rows, mem_unique_rows, ha]

theorem chunk3_length :
    ∀ raw : List Int, raw.length % 3 = 0 → (chunk3 raw).length * 3 = raw.length := by
  intro raw
  induction raw using chunk3.induct <;> intro h <;> simp_all [chunk3] <;> omega

theorem pairUp_length : ∀ l : List Nat, (pairUp l).length = l.length / 2 := by
  intro l
  induction l using pairUp.induct <;> simp_all [pairUp] <;> omega

theorem pairUp_mem :
    ∀ (l : List Nat) (pr : Nat × Nat), pr ∈ pairUp l → pr.1 ∈ l ∧ pr.2 ∈ l := by
  intro l
  induction l using pairUp.induct with
  | case1 => intro pr h; simp [pairUp] at h
  | case2 a => intro pr h; simp [pairUp] at h
  | case3 a b rest ih =>
    intro pr h
    simp only [pairUp, List.mem_cons] at h
    rcases h with h | h
    · subst h; simp
    · have := ih pr h
      simp [this.1, this.2]

theorem pairUp_getD :
    ∀ (l : List Nat) (e : Nat), e < (pairUp l).length →
      (pairUp l).getD e (0, 0) = (l.getD (2 * e) 0, l.getD (2 * e + 1) 0) := by
  intro l
  induction l using pairUp.induct with
  | case1 => intro e he; simp [pairUp] at he
  | case2 a => intro e he; simp [pairUp] at he
  | case3 a b rest ih =>
    intro e he
    cases e with
    | zero => simp [pairUp]
    | succ e' =>
      have h2 : 2 * (e' + 1) = 2 * e' + 1 + 1 := by omega
      simp only [pairUp, List.getD_cons_succ, h2]
      apply ih
      simpa [pairUp] using he

theorem map_getD_of_lt (f : Pt → Nat) (l : List Pt) (i : Nat) (d : Nat)
    (hi : i < l.length) : (l.map f).getD i d = f (l.getD i default) := by
  rw [List.getD_eq_getElem _ _ (by simpa using hi),
    List.getD_eq_getElem _ _ hi, List.getElem_map]

theorem skeleton_dedup_eq {raw : List Int} {verts : List Pt}
    {edges : List (Nat × Nat)}
    (h : skeleton_dedup raw = some (verts, edges)) :
    verts = unique_rows (chunk3 raw) ∧
      edges = pairUp ((chunk3 raw).map (fun p => verts.indexOf p)) := by
  by_cases h3 : raw.length % 3 = 0
  · by_cases h2 : (chunk3 raw).length % 2 = 0
    · unfold skeleton_dedup at h
      rw [if_pos h3] at h
      simp only [if_pos h2, Option.some.injEq, Prod.mk.injEq] at h
      refine ⟨h.1.symm, ?_⟩
      rw [← h.2, h.1]
    · unfold skeleton_dedup at h
      rw [if_pos h3] at h
      simp only [if_neg h2] at h
      exact absurd h (by simp)
  · unfold skeleton_dedup at h
    rw [if_neg h3] at h
    exact absurd h (by simp)

/-- C1: for every raw skeleton point stream whose length is a multiple of 3
(and which splits into whole edges, i.e. a multiple of 6 coordinates = 2E
points), the `(vertices, edges)` pair produced by the skeleton
deduplication in `fetch_proofread_skeletons` has every edge index strictly
below the number of vertex rows, and at most `2 * E` vertex rows. -/
theorem C1_skeleton_dedup_bounds (raw : List Int) (h : raw.length % 6 = 0) :
    ∃ verts edges, skeleton_dedup raw = some (verts, edges) ∧
      (∀ e ∈ edges, e.1 < verts.length ∧ e.2 < verts.length) ∧
      verts.length ≤ 2 * (raw.length / 6) := by
  have h3 : raw.length % 3 = 0 := by omega
  have hc : (chunk3 raw).length * 3 = raw.length := chunk3_length raw h3
  have h2 : (chunk3 raw).length % 2 = 0 := by omega
  refine ⟨unique_rows (chunk3 raw),
    pairUp ((chunk3 raw).map (fun p => (unique_rows (chunk3 raw)).indexOf p)),
    ?_, ?_, ?_⟩
  · unfold skeleton_dedup
    rw [if_pos h3]
    simp only [if_pos h2]
  · intro e he
    have hmem := pairUp_mem _ e he
    constructor
    · obtain ⟨p, hp, hpe⟩ := List.mem_map.mp hmem.1
      rw [← hpe]
      exact List.indexOf_lt_length.mpr (mem_unique_rows.mpr hp)
    · obtain ⟨p, hp, hpe⟩ := List.mem_map.mp hmem.2
      rw [← hpe]
      exact List.indexOf_lt_length.mpr (mem_unique_rows.mpr hp)
  · have := length_unique_rows_le (chunk3 raw)
    omega

theorem C1_witness :
    (([4, 5, 6, 1, 2, 3, 1, 2, 3, 7, 8, 9] : List Int).length % 6 = 0) ∧
      ∃ verts edges,
        skeleton_dedup [4, 5, 6, 1, 2, 3, 1, 2, 3, 7, 8, 9] = some (verts, edges) ∧
        (∀ e ∈ edges, e.1 < verts.length ∧ e.2 < verts.length) ∧
        verts.length ≤ 2 * (([4, 5, 6, 1, 2, 3, 1, 2, 3, 7, 8, 9] : List Int).length / 6) :=
  ⟨by decide, C1_skeleton_dedup_bounds _ (by decide)⟩

/-- C2: for every even-length flat point sequence accepted by the
deduplication, the vertex list is exactly the distinct coordinates of the
input (membership-equal and duplicate-free), every input edge is kept
(`edges.length = points / 2`), edge `e` maps input points `2e` and `2e+1`
to their vertex indices, and a pair of identical points yields a
degenerate self-loop `(i, i)` that remains in the output. -/
theorem C2_skeleton_dedup_shape (raw : List Int) (verts : List Pt)
    (edges : List (Nat × Nat))
    (h : skeleton_dedup raw = some (verts, edges)) :
    (∀ p, p ∈ verts ↔ p ∈ chunk3 raw) ∧ verts.Nodup ∧
      edges.length = (chunk3 raw).length / 2 ∧
      (∀ e, e < edges.length →
        edges.getD e (0, 0) =
          (verts.indexOf ((chunk3 raw).getD (2 * e) default),
           verts.indexOf ((chunk3 raw).getD (2 * e + 1) default))) ∧
      (∀ e, e < edges.length →
        (chunk3 raw).getD (2 * e) default = (chunk3 raw).getD (2 * e + 1) default →
        (edges.getD e (0, 0)).1 = (edges.getD e (0, 0)).2) := by
  obtain ⟨hv, he⟩ := skeleton_dedup_eq h
  subst hv
  have hlen : edges.length = (chunk3 raw).length / 2 := by
    rw [he, pairUp_length, List.length_map]
  have hform : ∀ e, e < edges.length →
      edges.getD e (0, 0) =
        ((unique_rows (chunk3 raw)).indexOf ((chunk3 raw).getD (2 * e) default),
         (unique_rows (chunk3 raw)).indexOf ((chunk3 raw).getD (2 * e + 1) default)) := by
    intro e hee
    have hee' : e < (pairUp ((chunk3 raw).map
        (fun p => (unique_rows (chunk3 raw)).indexOf p))).length := by
      rw [← he]; exact hee
    have hlt : 2 * e + 1 < (chunk3 raw).length := by
      rw [hlen] at hee; omega
    rw [he, pairUp_getD _ e hee',
      map_getD_of_lt _ _ _ _ (by omega),
      map_getD_of_lt _ _ _ _ hlt]
  refine ⟨fun p => mem_unique_rows, nodup_unique_rows _, hlen, hform, ?_⟩
  intro e hee hpq
  rw [hform e hee, hpq]

theorem C2_witness :
    skeleton_dedup [1, 2, 3, 1, 2, 3, 0, 0, 0, 1, 2, 3] =
      some ([⟨0, 0, 0⟩, ⟨1, 2, 3⟩], [(1, 1), (0, 1)]) ∧
      ((∀ p, p ∈ [(⟨0, 0, 0⟩ : Pt), ⟨1, 2, 3⟩] ↔
          p ∈ chunk3 [1, 2, 3, 1, 2, 3, 0, 0, 0, 1, 2, 3]) ∧
        ([(⟨0, 0, 0⟩ : Pt), ⟨1, 2, 3⟩]).Nodup ∧
        ([(1, 1), (0, 1)] : List (Nat × Nat)).length =
          (chunk3 [1, 2, 3, 1, 2, 3, 0, 0, 0, 1, 2, 3]).length / 2 ∧
        (∀ e, e < ([(1, 1), (0, 1)] : List (Nat × Nat)).length →
          ([(1, 1), (0, 1)] : List (Nat × Nat)).getD e (0, 0) =
            (([(⟨0, 0, 0⟩ : Pt), ⟨1, 2, 3⟩]).indexOf
              ((chunk3 [1, 2, 3, 1, 2, 3, 0, 0, 0, 1, 2, 3]).getD (2 * e) default),
             ([(⟨0, 0, 0⟩ : Pt), ⟨1, 2, 3⟩]).indexOf
              ((chunk3 [1, 2, 3, 1, 2, 3, 0, 0, 0, 1, 2, 3]).getD (2 * e + 1) default))) ∧
        (∀ e, e < ([(1, 1), (0, 1)] : List (Nat × Nat)).length →
          (chunk3 [1, 2, 3, 1, 2, 3, 0, 0, 0, 1, 2, 3]).getD (2 * e) default =
            (chunk3 [1, 2, 3, 1, 2, 3, 0, 0, 0, 1, 2, 3]).getD (2 * e + 1) default →
          (([(1, 1), (0, 1)] : List (Nat × Nat)).getD e (0, 0)).1 =
            (([(1, 1), (0, 1)] : List (Nat × Nat)).getD e (0, 0)).2)) :=
  ⟨by decide, C2_skeleton_dedup_shape _ _ _ (by decide)⟩

/-- C10: the vertex array produced by the skeleton deduplication is in
sorted (lexicographic) coordinate order — `np.unique` sorts its output —
so it is canonical: any two accepted inputs whose point streams contain
the same set of distinct coordinates yield identical vertex arrays. -/
theorem C10_skeleton_dedup_canonical (raw₁ raw₂ : List Int) (v₁ v₂ : List Pt)
    (e₁ e₂ : List (Nat × Nat))
    (h₁ : skeleton_dedup raw₁ = some (v₁, e₁))
    (h₂ : skeleton_dedup raw₂ = some (v₂, e₂))
    (hset : (chunk3 raw₁).toFinset = (chunk3 raw₂).toFinset) :
    List.Sorted (· ≤ ·) v₁ ∧ v₁ = v₂ := by
  obtain ⟨hv₁, -⟩ := skeleton_dedup_eq h₁
  obtain ⟨hv₂, -⟩ := skeleton_dedup_eq h₂
  subst hv₁
  subst hv₂
  exact ⟨sorted_unique_rows _, unique_rows_canonical hset⟩

theorem C10_witness :
    List.Sorted (· ≤ ·) [(⟨0, 0, 0⟩ : Pt), ⟨1, 2, 3⟩] ∧
      [(⟨0, 0, 0⟩ : Pt), ⟨1, 2, 3⟩] = [(⟨0, 0, 0⟩ : Pt), ⟨1, 2, 3⟩] :=
  C10_skeleton_dedup_canonical [1, 2, 3, 0, 0, 0]
    [0, 0, 0, 1, 2, 3, 0, 0, 0, 1, 2, 3]
    [⟨0, 0, 0⟩, ⟨1, 2, 3⟩] [⟨0, 0, 0⟩, ⟨1, 2, 3⟩]
    [(1, 0)] [(0, 1), (0, 1)]
    (by decide) (by decide) (by decide)

/-- Configuration object: the YAML mapping `cfg` as consumed by
`write_info_file` (`cfg.get("num_channels", 1)` etc.); `none` models an
absent key, so `Option.getD` is Python's `dict.get` with default. -/
structure Cfg where
  num_channels : Option Int := none
  chunk_sizes : Option (List (List Int)) := none
  resolution : Option (List Int) := none
  size : Option (List Int) := none
deriving DecidableEq, Repr

/-- One entry of the manifest's `scales` list, as built in
`write_info_file` (`src/ng_utils.py` lines 113-121). -/
structure ScaleEntry where
  encoding : String
  chunk_sizes : List (List Int)
  key : String
  resolution : List Int
  size : List Int
deriving DecidableEq, Repr

instance : Inhabited ScaleEntry :=
  ⟨{ encoding := "", chunk_sizes := [], key := "", resolution := [], size := [] }⟩

/-- The `info` JSON value built by `write_info_file`
(`src/ng_utils.py` lines 108-123); `type_tag` is the `"@type"` key. -/
structure InfoManifest where
  type_tag : String
  type : String
  data_type : String
  num_channels : Int
  scales : List ScaleEntry
  mesh : String
deriving DecidableEq, Repr

/-- The manifest value `info` of `write_info_file`, before JSON
serialization and upload. -/
def info_manifest (fragment_dir_name : String) (cfg : Cfg) : InfoManifest :=
  { type_tag := "neuroglancer_multiscale_volume"
    type := "segmentation"
    data_type := "uint64"
    num_channels := cfg.num_channels.getD 1
    scales := [
      { encoding := "raw"
        chunk_sizes := cfg.chunk_sizes.getD [[64, 64, 64]]
        key := "fullres"
        resolution := cfg.resolution.getD [8, 8, 30]
        size := cfg.size.getD [1, 1, 1] }]
    mesh := fragment_dir_name }

/-- Body of an object-store put: raw fragment bytes, or the serialized
manifest (represented by the manifest value; `json.dumps` is injective on
it, so byte identity is value identity). -/
inductive PutBody where
  | bytes (b : List Nat)
  | json (i : InfoManifest)
deriving DecidableEq, Repr

/-- One `s3.put_object(Bucket=..., Key=..., Body=..., ContentType=...)`
call. -/
structure PutRec where
  bucket : String
  key : String
  body : PutBody
  contentType : String
deriving DecidableEq, Repr

/-- Errors the per-segment fetch can raise (spec section 7): raised by the
annotation API inside the `for sid in segment_ids` loop. -/
inductive FetchFailure where
  | notFoundError
  | fetchError
deriving DecidableEq, Repr

/-- `fetch_proofread_meshes` (`src/ng_utils.py` lines 17-34): loops over
`segment_ids`, fetching and encoding one fragment per id with NO
try/except — an exception raised for one id propagates immediately,
abandoning the partial `out` dict and the remaining ids.  `fetcher sid`
stands for the fetch-and-encode of one id
(`fetch_segment_id_mesh`/`fetch_proofread_mesh`/`to_precomputed`),
returning the fragment bytes or raising. -/
def fetch_proofread_meshes (fetcher : Nat → Except FetchFailure (List Nat)) :
    List Nat → Except FetchFailure (List (Nat × List Nat))
  | [] => Except.ok []
  | sid :: rest =>
    match fetcher sid with
    | Except.error e => Except.error e
    | Except.ok frag =>
      match fetch_proofread_meshes fetcher rest with
      | Except.error e => Except.error e
      | Except.ok out => Except.ok ((sid, frag) :: out)

/-- `upload_meshes_to_s3` (`src/ng_utils.py` lines 69-85): puts each
fragment at `{s3_base_path}/{fragment_dir_name}/{sid}:0` with content type
`application/octet-stream`, returning the put calls and the dataset root
URL `s3://{bucket}/{s3_base_path}/{fragment_dir_name}`. -/
def upload_meshes_to_s3 (fragments : List (Nat × List Nat))
    (bucket s3_base_path fragment_dir_name : String) :
    List PutRec × String :=
  let pfx := s3_base_path ++ "/" ++ fragment_dir_name
  (fragments.map (fun sf =>
    { bucket := bucket
      key := pfx ++ "/" ++ toString sf.1 ++ ":0"
      body := PutBody.bytes sf.2
      contentType := "application/octet-stream" }),
   "s3://" ++ bucket ++ "/" ++ pfx)

/-- `write_info_file` (`src/ng_utils.py` lines 103-132): builds the
manifest and puts it at `{s3_base_path}/info` with content type
`application/json`. -/
def write_info_file (bucket s3_base_path fragment_dir_name : String)
    (cfg : Cfg) : PutRec :=
  { bucket := bucket
    key := s3_base_path ++ "/info"
    body := PutBody.json (info_manifest fragment_dir_name cfg)
    contentType := "application/json" }

/-- The mesh stage of `main` (`src/generate_ng_state.py` lines 23-31):
`fetch_proofread_meshes`, then `upload_meshes_to_s3`, then
`write_info_file`.  Any exception from the fetch loop propagates out of
`main`; there is no outcome table and no partial publication. -/
def main_mesh_stage (fetcher : Nat → Except FetchFailure (List Nat))
    (segment_ids : List Nat) (bucket s3_base_path fragment_dir_name : String)
    (cfg : Cfg) : Except FetchFailure (List PutRec × String) :=
  match fetch_proofread_meshes fetcher segment_ids with
  | Except.error e => Except.error e
  | Except.ok frags =>
    let up := upload_meshes_to_s3 frags bucket s3_base_path fragment_dir_name
    Except.ok
      (up.1 ++ [write_info_file bucket s3_base_path fragment_dir_name cfg], up.2)

/-- An object store: maps `(bucket, key)` to the stored body and content
type. -/
def ObjStore := String × String → Option (PutBody × String)

/-- Full-content overwrite semantics of `s3.put_object`. -/
def applyPut (st : ObjStore) (p : PutRec) : ObjStore :=
  fun k => if k = (p.bucket, p.key) then some (p.body, p.contentType) else st k

/-- Apply a sequence of puts in order. -/
def applyPuts (st : ObjStore) (l : List PutRec) : ObjStore :=
  l.foldl applyPut st

/-- The last put in `l` addressing `k`, if any. -/
def lastFor (k : String × String) : List PutRec → Option PutRec
  | [] => none
  | p :: rest =>
    match lastFor k rest with
    | some q => some q
    | none => if k = (p.bucket, p.key) then some p else none

theorem applyPuts_apply (l : List PutRec) :
    ∀ (st : ObjStore) (k : String × String),
      applyPuts st l k = match lastFor k l with
        | some q => some (q.body, q.contentType)
        | none => st k := by
  induction l with
  | nil => intro st k; rfl
  | cons p rest ih =>
    intro st k
    show applyPuts (applyPut st p) rest k = _
    rw [ih]
    cases hl : lastFor k rest with
    | some q => simp [lastFor, hl]
    | none =>
      simp only [lastFor, hl, applyPut]
      split <;> rfl

theorem applyPuts_idem (l : List PutRec) (st : ObjStore) :
    applyPuts (applyPuts st l) l = applyPuts st l := by
  funext k
  rw [applyPuts_apply l (applyPuts st l) k, applyPuts_apply l st k]
  cases h : lastFor k l with
  | some q => rfl
  | none => rfl

/-- A fetcher for segment ids `[1, 2]` where fetching id `1` raises
`NotFoundError` and id `2` succeeds with a fragment. -/
def notFoundOnOne : Nat → Except FetchFailure (List Nat) :=
  fun sid => if sid = 1 then Except.error FetchFailure.notFoundError
    else Except.ok [7, 7, 7]

/-- C3 counterexample: for segment ids `[1, 2]` where fetching `1` raises
`NotFoundError` and `2` succeeds, the claim expects a
`PartialSuccess([1])` outcome with `2`'s artifacts published.  Instead the
whole mesh stage of `main` aborts with the propagated error: no put for
segment `2` occurs, no outcome table exists (the result type of the code
cannot even express one), and no manifest is written. -/
theorem C3_counterexample :
    main_mesh_stage notFoundOnOne [1, 2] "bkt" "exp1" "mesh" {} =
      Except.error FetchFailure.notFoundError := by
  rfl

/-- C3 amended: a per-segment fetch failure aborts the run.  If every id
before `sid` fetches successfully and fetching `sid` raises, then
`fetch_proofread_meshes` propagates that error: the ids after `sid` are
never processed and no fragment at all is returned. -/
theorem C3_fetch_error_aborts_run
    (fetcher : Nat → Except FetchFailure (List Nat))
    (pre : List Nat) (sid : Nat) (post : List Nat) (e : FetchFailure)
    (hpre : ∀ s ∈ pre, ∃ b, fetcher s = Except.ok b)
    (hs : fetcher sid = Except.error e) :
    fetch_proofread_meshes fetcher (pre ++ sid :: post) = Except.error e := by
  induction pre with
  | nil =>
    simp only [List.nil_append, fetch_proofread_meshes, hs]
  | cons p ps ih =>
    obtain ⟨b, hb⟩ := hpre p (List.mem_cons_self p ps)
    have ih' := ih (fun s hsmem => hpre s (List.mem_cons_of_mem p hsmem))
    simp only [List.cons_append, fetch_proofread_meshes, hb, List.append_eq, ih']

theorem C3_witness :
    (∀ s ∈ [(0 : Nat)], ∃ b, notFoundOnOne s = Except.ok b) ∧
      notFoundOnOne 1 = Except.error FetchFailure.notFoundError ∧
      fetch_proofread_meshes notFoundOnOne ([0] ++ 1 :: [2]) =
        Except.error FetchFailure.notFoundError :=
  ⟨by intro s hsmem; simp at hsmem; subst hsmem; exact ⟨[7, 7, 7], rfl⟩, rfl,
    C3_fetch_error_aborts_run notFoundOnOne [0] 1 [2]
      FetchFailure.notFoundError
      (by intro s hsmem; simp at hsmem; subst hsmem; exact ⟨[7, 7, 7], rfl⟩)
      rfl⟩

/-- C4 counterexample: with the default (empty) configuration, the
manifest's `scales[0].chunk_sizes` is `[[64, 64, 64]]` — a 1-element list
of chunk triples, not a 3-element numeric sequence as the claim states. -/
theorem C4_counterexample :
    ¬ (∀ s ∈ (info_manifest "mesh" {}).scales, s.chunk_sizes.length = 3) := by
  decide

/-- C4 amended: for every configuration the manifest's `scales` list has
length exactly 1 and `mesh` equals the configured mesh directory name;
when the configuration supplies no overrides, `scales[0].resolution` and
`scales[0].size` are 3-element numeric sequences and
`scales[0].chunk_sizes` is a 1-element list whose single element is a
3-element chunk triple (the values are otherwise taken verbatim from the
configuration). -/
theorem C4_info_manifest_shape (fragment_dir_name : String) (cfg : Cfg) :
    (info_manifest fragment_dir_name cfg).scales.length = 1 ∧
      (info_manifest fragment_dir_name cfg).mesh = fragment_dir_name ∧
      (cfg.resolution = none →
        ((info_manifest fragment_dir_name cfg).scales.headD default).resolution.length = 3) ∧
      (cfg.size = none →
        ((info_manifest fragment_dir_name cfg).scales.headD default).size.length = 3) ∧
      (cfg.chunk_sizes = none →
        ((info_manifest fragment_dir_name cfg).scales.headD default).chunk_sizes = [[64, 64, 64]]) := by
  refine ⟨rfl, rfl, ?_, ?_, ?_⟩ <;>
    intro h <;> simp [info_manifest, h]

theorem C4_witness :
    (info_manifest "mesh" {}).scales.length = 1 ∧
      (info_manifest "mesh" {}).mesh = "mesh" ∧
      ((info_manifest "mesh" {}).scales.headD default).resolution.length = 3 ∧
      ((info_manifest "mesh" {}).scales.headD default).size.length = 3 ∧
      ((info_manifest "mesh" {}).scales.headD default).chunk_sizes = [[64, 64, 64]] := by
  have h := C4_info_manifest_shape "mesh" {}
  exact ⟨h.1, h.2.1, h.2.2.1 rfl, h.2.2.2.1 rfl, h.2.2.2.2 rfl⟩

/-- C5: every fragment for segment `sid` is put at object-store key
`{s3_base_path}/{fragment_dir_name}/{sid}:0` with content type
`application/octet-stream`, and the manifest is put at key
`{s3_base_path}/info` with content type `application/json`. -/
theorem C5_put_keys_and_content_types
    (bucket s3_base_path fragment_dir_name : String) (cfg : Cfg)
    (fragments : List (Nat × List Nat)) (sid : Nat) (frag : List Nat)
    (hmem : (sid, frag) ∈ fragments) :
    ({ bucket := bucket
       key := s3_base_path ++ "/" ++ fragment_dir_name ++ "/" ++ toString sid ++ ":0"
       body := PutBody.bytes frag
       contentType := "application/octet-stream" } : PutRec) ∈
        (upload_meshes_to_s3 fragments bucket s3_base_path fragment_dir_name).1 ∧
      (write_info_file bucket s3_base_path fragment_dir_name cfg).key =
        s3_base_path ++ "/info" ∧
      (write_info_file bucket s3_base_path fragment_dir_name cfg).contentType =
        "application/json" := by
  refine ⟨?_, rfl, rfl⟩
  have h := List.mem_map_of_mem (fun sf : Nat × List Nat =>
    ({ bucket := bucket
       key := s3_base_path ++ "/" ++ fragment_dir_name ++ "/" ++ toString sf.1 ++ ":0"
       body := PutBody.bytes sf.2
       contentType := "application/octet-stream" } : PutRec)) hmem
  exact h

theorem C5_witness :
    ((10, [1, 2, 3]) ∈ [((10 : Nat), [(1 : Nat), 2, 3])]) ∧
      (({ bucket := "bkt"
          key := "exp1" ++ "/" ++ "mesh" ++ "/" ++ toString (10 : Nat) ++ ":0"
          body := PutBody.bytes [1, 2, 3]
          contentType := "application/octet-stream" } : PutRec) ∈
        (upload_meshes_to_s3 [(10, [1, 2, 3])] "bkt" "exp1" "mesh").1 ∧
      (write_info_file "bkt" "exp1" "mesh" {}).key = "exp1" ++ "/info" ∧
      (write_info_file "bkt" "exp1" "mesh" {}).contentType = "application/json") :=
  ⟨by decide,
    C5_put_keys_and_content_types "bkt" "exp1" "mesh" {} [(10, [1, 2, 3])]
      10 [1, 2, 3] (by decide)⟩

/-- C6: publishing is deterministic and idempotent.  The body of each put
issued by `upload_meshes_to_s3` is exactly the fragment's bytes — a pure
function of the fragment — and since each put is a full-content
overwrite, applying the same sequence of puts a second time leaves the
object store byte-for-byte identical to applying it once. -/
theorem C6_publish_idempotent (st : ObjStore)
    (bucket s3_base_path fragment_dir_name : String)
    (fragments : List (Nat × List Nat)) :
    ((upload_meshes_to_s3 fragments bucket s3_base_path fragment_dir_name).1).map
        PutRec.body = fragments.map (fun sf => PutBody.bytes sf.2) ∧
      applyPuts
        (applyPuts st (upload_meshes_to_s3 fragments bucket s3_base_path fragment_dir_name).1)
        (upload_meshes_to_s3 fragments bucket s3_base_path fragment_dir_name).1 =
      applyPuts st (upload_meshes_to_s3 fragments bucket s3_base_path fragment_dir_name).1 := by
  constructor
  · simp [upload_meshes_to_s3, List.map_map]
  · exact applyPuts_idem _ st

/-- A triangle mesh as fetched for one segment: vertex rows are 32-bit
float coordinate triples (a `Nat` stands for the 32-bit word), face rows
are 32-bit unsigned vertex-index triples
(`np.array(proof.vertices, dtype=np.float32)`,
`np.array(proof.faces, dtype=np.uint32)` in `fetch_proofread_meshes`). -/
structure MeshFragment where
  vertices : List (Nat × Nat × Nat)
  faces : List (Nat × Nat × Nat)
deriving DecidableEq, Repr

/-- Every face index refers to an existing vertex row. -/
def validFaces (m : MeshFragment) : Prop :=
  ∀ f ∈ m.faces, f.1 < m.vertices.length ∧ f.2.1 < m.vertices.length ∧
    f.2.2 < m.vertices.length

instance (m : MeshFragment) : Decidable (validFaces m) := by
  unfold validFaces
  exact List.decidableBAll _ _

/-- Modelled from the spec (section 4.3): the GeometryCodec's failure
kinds; the codec itself (`cloudvolume.mesh.Mesh.to_precomputed`, called
from `fetch_proofread_meshes`) is not part of this repository's sources. -/
inductive EncodingError where
  | indexOutOfRange
  | tooLarge
deriving DecidableEq, Repr

/-- Interleave a triple stream into the flat 32-bit word stream of the
wire format (each `Nat` entry is one 32-bit word of the binary layout). -/
def triplesWords : List (Nat × Nat × Nat) → List Nat
  | [] => []
  | t :: rest => t.1 :: t.2.1 :: t.2.2 :: triplesWords rest

/-- Modelled from the spec (section 4.3): the GeometryCodec encoder,
absent from `src/` (it is `cloudvolume`'s `Mesh.to_precomputed`).  The
binary fragment is the vertex count, then the vertex positions
(interleaved x, y, z), then the face index triples, in that fixed order
with no compression; it fails with `EncodingError` if any face index is
out of range or the vertex/face counts exceed the configured maximum. -/
def encode_mesh (maxCount : Nat) (m : MeshFragment) :
    Except EncodingError (List Nat) :=
  if maxCount < m.vertices.length ∨ maxCount < m.faces.length then
    Except.error EncodingError.tooLarge
  else if validFaces m then
    Except.ok (m.vertices.length ::
      (triplesWords m.vertices ++ triplesWords m.faces))
  else
    Except.error EncodingError.indexOutOfRange

/-- Read exactly `n` triples from a word stream, returning the rest. -/
def readTriples : Nat → List Nat → Option (List (Nat × Nat × Nat) × List Nat)
  | 0, w => some ([], w)
  | n + 1, a :: b :: c :: w =>
    (readTriples n w).map (fun pr => ((a, b, c) :: pr.1, pr.2))
  | _ + 1, _ => none

/-- Read a whole word stream as triples. -/
def wordsToTriples : List Nat → Option (List (Nat × Nat × Nat))
  | [] => some []
  | a :: b :: c :: w => (wordsToTriples w).map (fun l => (a, b, c) :: l)
  | _ => none

/-- Modelled from the spec (section 4.3): the GeometryCodec decoder, the
exact inverse of the encoder, used for round-trip verification. -/
def decode_mesh (w : List Nat) : Option MeshFragment :=
  match w with
  | [] => none
  | n :: rest =>
    match readTriples n rest with
    | none => none
    | some (vs, rest2) =>
      match wordsToTriples rest2 with
      | none => none
      | some fs => some { vertices := vs, faces := fs }

theorem readTriples_triplesWords (l : List (Nat × Nat × Nat)) :
    ∀ rest : List Nat, readTriples l.length (triplesWords l ++ rest) =
      some (l, rest) := by
  induction l with
  | nil => intro rest; rfl
  | cons t ts ih =>
    intro rest
    obtain ⟨a, b, c⟩ := t
    simp only [triplesWords, List.length_cons, List.cons_append, readTriples,
      List.append_eq, ih rest, Option.map_some']

theorem wordsToTriples_triplesWords (l : List (Nat × Nat × Nat)) :
    wordsToTriples (triplesWords l) = some l := by
  induction l with
  | nil => rfl
  | cons t ts ih => simp only [triplesWords, wordsToTriples, ih, Option.map_some']

/-- C7: encoding a MeshFragment whose faces contain an out-of-range index,
or whose vertex or face count exceeds the configured maximum, fails with
an `EncodingError` instead of producing a binary fragment. -/
theorem C7_encode_rejects_malformed (maxCount : Nat) (m : MeshFragment)
    (h : ¬ validFaces m ∨ maxCount < m.vertices.length ∨
      maxCount < m.faces.length) :
    ∃ e, encode_mesh maxCount m = Except.error e := by
  unfold encode_mesh
  split_ifs with h1 h2
  · exact ⟨EncodingError.tooLarge, rfl⟩
  · rcases h with hbad | hbig
    · exact absurd h2 hbad
    · exact absurd hbig h1
  · exact ⟨EncodingError.indexOutOfRange, rfl⟩

theorem C7_witness :
    (¬ validFaces { vertices := [(0, 0, 0)], faces := [(0, 5, 0)] } ∨
      10 < ({ vertices := [(0, 0, 0)], faces := [(0, 5, 0)] } : MeshFragment).vertices.length ∨
      10 < ({ vertices := [(0, 0, 0)], faces := [(0, 5, 0)] } : MeshFragment).faces.length) ∧
      ∃ e, encode_mesh 10 { vertices := [(0, 0, 0)], faces := [(0, 5, 0)] } =
        Except.error e :=
  ⟨Or.inl (by decide),
    C7_encode_rejects_malformed 10 _ (Or.inl (by decide))⟩

/-- C8: the codec is lossless — whenever the encoder accepts a
MeshFragment (well-formed geometry), decoding the produced binary
fragment reproduces the original vertex and face arrays exactly. -/
theorem C8_encode_decode_roundtrip (maxCount : Nat) (m : MeshFragment)
    (w : List Nat) (h : encode_mesh maxCount m = Except.ok w) :
    decode_mesh w = some m := by
  unfold encode_mesh at h
  split_ifs at h
  simp only [Except.ok.injEq] at h
  subst h
  simp only [decode_mesh, readTriples_triplesWords,
    wordsToTriples_triplesWords]

theorem C8_witness :
    encode_mesh 10
        { vertices := [(0, 0, 0), (1, 1, 1), (2, 2, 2)], faces := [(0, 1, 2)] } =
      Except.ok [3, 0, 0, 0, 1, 1, 1, 2, 2, 2, 0, 1, 2] ∧
      decode_mesh [3, 0, 0, 0, 1, 1, 1, 2, 2, 2, 0, 1, 2] =
        some { vertices := [(0, 0, 0), (1, 1, 1), (2, 2, 2)], faces := [(0, 1, 2)] } :=
  ⟨rfl,
    C8_encode_decode_roundtrip 10
      { vertices := [(0, 0, 0), (1, 1, 1), (2, 2, 2)], faces := [(0, 1, 2)] }
      [3, 0, 0, 0, 1, 1, 1, 2, 2, 2, 0, 1, 2] rfl⟩

/-- A named viewer layer as assembled by `build_viewer_link`:
`segments = none` models a layer with no segment restriction. -/
structure Layer where
  name : String
  source : String
  segments : Option (List Nat)
deriving DecidableEq, Repr

/-- The state the `nglui` `SkeletonManager` carries that
`build_viewer_link` consumes: its source strings and the root ids
uploaded through it (`upload_skeleton` calls in `upload_skeletons`). -/
structure SkelManager where
  segmentation_source : String
  cloudpath : String
  uploaded : List Nat
deriving DecidableEq, Repr

/-- Modelled from the spec (section 4.7): the `nglui`
`SkeletonManager.to_segmentation_layer(name=..., uploaded_segments=True)`
call, absent from `src/` — it builds a segmentation layer with the given
name, the manager's own source, and the manager's uploaded segment ids
selected. -/
def SkelManager.to_segmentation_layer (mgr : SkelManager) (name : String) :
    Layer :=
  { name := name, source := mgr.cloudpath, segments := some mgr.uploaded }

/-- `build_viewer_link` (`src/ng_utils.py` lines 135-179), restricted to
the layer list written into the `ViewerState`: image layer `EM_image`,
flat segmentation `flat_seg`, the mesh layer (restricted to
`segment_ids`), the `proofread_skeletons_source` layer (restricted to
`segment_ids`), and — when a `skeleton_manager` is passed — the
manager's skeleton layer. -/
def build_viewer_link (image_source seg_source mesh_source skeleton_source
    mesh_layer_name : String) (segment_ids : List Nat)
    (skeleton_manager : Option SkelManager) (skeleton_layer_name : String) :
    List Layer :=
  let base : List Layer := [
    { name := "EM_image", source := image_source, segments := none },
    { name := "flat_seg", source := seg_source, segments := none },
    { name := mesh_layer_name, source := "precomputed://" ++ mesh_source,
      segments := some segment_ids },
    { name := "proofread_skeletons_source",
      source := "precomputed://" ++ skeleton_source,
      segments := some segment_ids }]
  match skeleton_manager with
  | some mgr => base ++ [mgr.to_segmentation_layer skeleton_layer_name]
  | none => base

/-- C9: with a skeleton source and a non-null skeleton manager whose
uploaded ids are the published segment ids, the session's layer names are
exactly, in order, `EM_image`, `flat_seg`, the configured mesh layer
name, `proofread_skeletons_source`, and the configured skeleton layer
name; the mesh and skeleton layers are restricted to the published
segment ids and the two base layers are unrestricted. -/
theorem C9_viewer_layer_list (image_source seg_source mesh_source
    skeleton_source mesh_layer_name skeleton_layer_name : String)
    (segment_ids : List Nat) (mgr : SkelManager)
    (hpub : mgr.uploaded = segment_ids) :
    (build_viewer_link image_source seg_source mesh_source skeleton_source
        mesh_layer_name segment_ids (some mgr) skeleton_layer_name).map
        Layer.name =
      ["EM_image", "flat_seg", mesh_layer_name, "proofread_skeletons_source",
        skeleton_layer_name] ∧
    (build_viewer_link image_source seg_source mesh_source skeleton_source
        mesh_layer_name segment_ids (some mgr) skeleton_layer_name).map
        Layer.segments =
      [none, none, some segment_ids, some segment_ids, some segment_ids] := by
  subst hpub
  constructor <;> rfl

theorem C9_witness :
    (build_viewer_link "img" "seg" "s3://b/exp1/mesh" "s3://b/exp1/skeletons"
        "proofread_meshes" [10, 20]
        (some { segmentation_source := "seg", cloudpath := "s3://b/exp1/skeletons",
                uploaded := [10, 20] })
        "proofread_skeletons").map Layer.name =
      ["EM_image", "flat_seg", "proofread_meshes", "proofread_skeletons_source",
        "proofread_skeletons"] ∧
    (build_viewer_link "img" "seg" "s3://b/exp1/mesh" "s3://b/exp1/skeletons"
        "proofread_meshes" [10, 20]
        (some { segmentation_source := "seg", cloudpath := "s3://b/exp1/skeletons",
                uploaded := [10, 20] })
        "proofread_skeletons").map Layer.segments =
      [none, none, some [10, 20], some [10, 20], some [10, 20]] :=
  C9_viewer_layer_list "img" "seg" "s3://b/exp1/mesh" "s3://b/exp1/skeletons"
    "proofread_meshes" "proofread_skeletons" [10, 20]
    { segmentation_source := "seg", cloudpath := "s3://b/exp1/skeletons",
      uploaded := [10, 20] } rfl
